import Mathlib

/-
  Verification development for the fund-forge trading runtime.

  The definitions below are shallow embeddings of the Rust source:
    - src/ff_standard_lib/src/standardized_types/accounts/ledgers.rs
    - src/ff_standard_lib/src/consolidators/candlesticks.rs
    - src/ff_standard_lib/src/standardized_types/rolling_window.rs
    - src/ff_strategies/src/market_handlers.rs
    - src/ff_standard_lib/src/strategies/historical_engine.rs

  Numeric conventions: Rust f64 prices and pnl are modelled as Rat
  (the verified paths perform only field arithmetic, no float rounding);
  u64 quantities as Nat; DateTime as Int timestamps; hash maps as
  association lists.  Rust panics and Result errors are modelled with
  Except String.
-/

namespace FundForge

/-- OrderSide from enums.rs, as matched exhaustively in ledgers.rs lines 149-158. -/
inductive OrderSide
| Buy
| Sell
deriving DecidableEq, Repr

/-- PositionSide from enums.rs, as matched exhaustively in ledgers.rs lines 147-160. -/
inductive PositionSide
| Long
| Short
deriving DecidableEq, Repr

def posSideStr : PositionSide → String
| PositionSide.Long => "Long"
| PositionSide.Short => "Short"

/-- SymbolName is a String in ledgers.rs line 7. -/
abbrev SymbolName := String

/-- Lookup in an association list, modelling DashMap and HashMap get. -/
def alist_get {α : Type} (m : List (String × α)) (k : String) : Option α :=
  match m.find? (fun p => p.1 == k) with
  | some p => some p.2
  | none => none

/-- In-place value replacement for an existing key, modelling get_mut followed by mutation. -/
def alist_set {α : Type} (m : List (String × α)) (k : String) (v : α) : List (String × α) :=
  m.map (fun p => if p.1 == k then (k, v) else p)

/-- Key removal, modelling DashMap remove. -/
def alist_remove {α : Type} (m : List (String × α)) (k : String) : List (String × α) :=
  m.filter (fun p => p.1 != k)

/-- Insertion of a fresh key at the end, modelling DashMap insert for an absent key. -/
def alist_add {α : Type} (m : List (String × α)) (k : String) (v : α) : List (String × α) :=
  m ++ [(k, v)]

/-- Position from ledgers.rs lines 336-348.  The brokerage field is kept as a String tag. -/
structure Position where
  symbol_name : SymbolName
  brokerage : String
  side : PositionSide
  quantity : Nat
  average_price : Rat
  open_pnl : Rat
  booked_pnl : Rat
  highest_recoded_price : Rat
  lowest_recoded_price : Rat
  is_closed : Bool
  id : String
deriving DecidableEq, Repr

/-- Position::enter from ledgers.rs lines 351-372. -/
def Position.enter (symbol_name : SymbolName) (brokerage : String) (side : PositionSide)
    (quantity : Nat) (average_price : Rat) (id : String) : Position :=
  { symbol_name := symbol_name
    brokerage := brokerage
    side := side
    quantity := quantity
    average_price := average_price
    open_pnl := 0
    booked_pnl := 0
    highest_recoded_price := average_price
    lowest_recoded_price := average_price
    is_closed := false
    id := id }

/-- Ledger from ledgers.rs lines 38-48.  The currency field is irrelevant to the verified
paths and kept as a String; the three DashMaps are association lists. -/
structure Ledger where
  account_id : String
  brokerage : String
  cash_value : Rat
  cash_available : Rat
  currency : String
  cash_used : Rat
  positions : List (SymbolName × Position)
  positions_closed : List (SymbolName × List Position)
  positions_counter : List (SymbolName × Nat)
deriving DecidableEq, Repr

/-- Ledger::paper_account_init from ledgers.rs lines 105-123. -/
def paper_account_init (account_id : String) (brokerage : String) (cash_value : Rat)
    (currency : String) : Ledger :=
  { account_id := account_id
    brokerage := brokerage
    cash_value := cash_value
    cash_available := cash_value
    currency := currency
    cash_used := 0
    positions := []
    positions_closed := []
    positions_counter := [] }

/-- The push into positions_closed used at ledgers.rs lines 180-184, 255-259 and 285-289:
insert a singleton vec when the key is absent, otherwise push onto the existing vec. -/
def closed_push (m : List (SymbolName × List Position)) (k : SymbolName) (p : Position) :
    List (SymbolName × List Position) :=
  match alist_get m k with
  | none => alist_add m k [p]
  | some ps => alist_set m k (ps ++ [p])

/-- Ledger::generate_id from ledgers.rs lines 125-131: increments the per-symbol counter
(inserting 1 when absent) and formats the id string.  Returns the id together with the
updated counter map. -/
def generate_id (led : Ledger) (symbol_name : SymbolName) (time : Int) (side : PositionSide) :
    String × List (SymbolName × Nat) :=
  let counter2 :=
    match alist_get led.positions_counter symbol_name with
    | some v => alist_set led.positions_counter symbol_name (v + 1)
    | none => alist_add led.positions_counter symbol_name 1
  let n :=
    match alist_get counter2 symbol_name with
    | some v => v
    | none => 1
  (led.brokerage ++ "-" ++ led.account_id ++ "-" ++ symbol_name ++ "-" ++ toString time
      ++ "-" ++ toString n ++ "-" ++ posSideStr side, counter2)

/-- Ledger::update_or_create_paper_position from ledgers.rs lines 133-267, ported branch by
branch.  The brokerage margin_required call (not under src) is an explicit function
parameter.  Notable source behaviours kept as written:
  - the is_reducing match (lines 147-160) has identical arms for Long and Short, so a Buy
    against an existing Short is treated as non-reducing;
  - the reducing branch books pnl into cash_available and cash_used only (lines 192-194);
  - the no-existing-position branch inserts the freshly created position into
    positions_closed (lines 254-259), not into positions;
  - the u64 subtraction at line 174 panics on underflow, modelled as an error. -/
def update_or_create_paper_position (margin_required : SymbolName → Nat → Rat)
    (led : Ledger) (symbol_name : SymbolName) (quantity : Nat) (price : Rat)
    (side : OrderSide) (time : Int) : Except String Ledger :=
  match alist_get led.positions symbol_name with
  | some existing_position =>
    let existing_quantity := existing_position.quantity
    let existing_price := existing_position.average_price
    let is_reducing :=
      match existing_position.side with
      | PositionSide.Long =>
        match side with
        | OrderSide.Buy => false
        | OrderSide.Sell => true
      | PositionSide.Short =>
        match side with
        | OrderSide.Buy => false
        | OrderSide.Sell => true
    if is_reducing then
      if existing_quantity < quantity then
        Except.error "attempt to subtract with overflow"
      else
        let booked_pnl :=
          match existing_position.side with
          | PositionSide.Long => (existing_price - price) * (quantity : Rat)
          | PositionSide.Short => (price - existing_price) * (quantity : Rat)
        let pos1 : Position :=
          { existing_position with
              open_pnl := existing_position.open_pnl - booked_pnl
              booked_pnl := existing_position.booked_pnl + booked_pnl
              quantity := existing_quantity - quantity }
        if pos1.quantity == 0 then
          let pos2 : Position :=
            { pos1 with booked_pnl := pos1.booked_pnl + pos1.open_pnl, open_pnl := 0 }
          Except.ok
            { led with
                positions := alist_remove led.positions symbol_name
                positions_closed := closed_push led.positions_closed symbol_name pos2
                cash_available := led.cash_available + booked_pnl
                cash_used := led.cash_used - booked_pnl }
        else
          let pos2 : Position :=
            { pos1 with
                open_pnl := (price - pos1.average_price) * (pos1.quantity : Rat) }
          Except.ok
            { led with
                positions := alist_set led.positions symbol_name pos2
                cash_available := led.cash_available + booked_pnl
                cash_used := led.cash_used - booked_pnl }
    else
      let m := margin_required symbol_name quantity
      if led.cash_available < m then
        Except.error "Insufficient funds"
      else
        let new_avg :=
          ((existing_quantity : Rat) * existing_price + (quantity : Rat) * price)
            / ((existing_quantity + quantity : Nat) : Rat)
        let q2 := existing_quantity + quantity
        let new_open :=
          match existing_position.side with
          | PositionSide.Long => (price - new_avg) * (q2 : Rat)
          | PositionSide.Short => (new_avg - price) * (q2 : Rat)
        let pos2 : Position :=
          { existing_position with
              average_price := new_avg
              quantity := q2
              open_pnl := new_open }
        Except.ok
          { led with
              positions := alist_set led.positions symbol_name pos2
              cash_available := led.cash_available - m
              cash_used := led.cash_used + m }
  | none =>
    let m := margin_required symbol_name quantity
    if led.cash_available < m then
      Except.error "Insufficient funds"
    else
      let pside :=
        match side with
        | OrderSide.Buy => PositionSide.Long
        | OrderSide.Sell => PositionSide.Short
      let idc := generate_id led symbol_name time pside
      let position := Position.enter symbol_name led.brokerage pside quantity price idc.1
      Except.ok
        { led with
            positions_counter := idc.2
            positions_closed := closed_push led.positions_closed symbol_name position
            cash_available := led.cash_available - m
            cash_used := led.cash_used + m }

/-- Ledger::exit_position_paper from ledgers.rs lines 269-290.  margin_required is again a
parameter.  cash updates use the open pnl of the removed position before it is zeroed. -/
def exit_position_paper (margin_required : SymbolName → Nat → Rat)
    (led : Ledger) (symbol_name : SymbolName) : Ledger :=
  match alist_get led.positions symbol_name with
  | none => led
  | some old_position =>
    let margin_freed := margin_required symbol_name old_position.quantity
    let pos2 : Position :=
      { old_position with
          booked_pnl := old_position.booked_pnl + old_position.open_pnl
          open_pnl := 0
          is_closed := true }
    { led with
        positions := alist_remove led.positions symbol_name
        cash_available := led.cash_available + margin_freed + old_position.open_pnl
        cash_used := led.cash_used - (margin_freed + old_position.open_pnl)
        cash_value := led.cash_value + old_position.open_pnl
        positions_closed := closed_push led.positions_closed symbol_name pos2 }

/-- Ledger::is_long from ledgers.rs lines 299-306. -/
def ledger_is_long (led : Ledger) (symbol_name : SymbolName) : Bool :=
  match alist_get led.positions symbol_name with
  | some p => p.side == PositionSide.Long
  | none => false

/-- Ledger::is_short from ledgers.rs lines 308-315. -/
def ledger_is_short (led : Ledger) (symbol_name : SymbolName) : Bool :=
  match alist_get led.positions symbol_name with
  | some p => p.side == PositionSide.Short
  | none => false

/-- Sum of booked pnl over a list of positions. -/
def booked_sum (ps : List Position) : Rat :=
  ps.foldl (fun acc p => acc + p.booked_pnl) 0

/-- All booked pnl realised so far by the ledger: booked pnl on still-open positions plus
booked pnl on every position in the closed lists. -/
def realized_sum (led : Ledger) : Rat :=
  booked_sum (led.positions.map Prod.snd)
    + (led.positions_closed.map Prod.snd).foldl (fun acc ps => acc + booked_sum ps) 0

/-- The spec invariant from section 8 of the specification:
cash_value = cash_available + cash_used + sum of realized pnl. -/
def cash_equation (led : Ledger) : Prop :=
  led.cash_value = led.cash_available + led.cash_used + realized_sum led

instance (led : Ledger) : Decidable (cash_equation led) := by
  unfold cash_equation
  infer_instance

/-- BaseDataType from base_data_type.rs, as matched in candlesticks.rs update. -/
inductive BaseDataType
| Ticks
| Quotes
| Prices
| QuoteBars
| Candles
| Fundamentals
deriving DecidableEq, Repr

/-- CandleType variants from subscriptions.rs. -/
inductive CandleType
| CandleStick
| HeikinAshi
| Renko
deriving DecidableEq, Repr

/-- DataSubscription restricted to the fields the candlestick consolidator reads:
symbol name, resolution (as a duration on the Int timeline), base data type and
candle type. -/
structure DataSubscription where
  symbol : SymbolName
  resolution : Int
  base_data_type : BaseDataType
  candle_type : Option CandleType
deriving DecidableEq, Repr

/-- Tick from base data: price, volume and timestamp. -/
structure Tick where
  symbol : SymbolName
  price : Rat
  volume : Rat
  time : Int
deriving DecidableEq, Repr

/-- Price datum from base data: last traded price and timestamp. -/
structure PriceData where
  symbol : SymbolName
  price : Rat
  time : Int
deriving DecidableEq, Repr

/-- Quote from quote.rs: bid and ask snapshot with timestamp (volumes omitted,
the candlestick paths never read them). -/
structure QuoteData where
  symbol : SymbolName
  bid : Rat
  ask : Rat
  time : Int
deriving DecidableEq, Repr

/-- Candle from base data: open time, OHLCV, range, resolution and the closed flag.
The source field named open is a Lean keyword and is called o here. -/
structure Candle where
  symbol : SymbolName
  o : Rat
  high : Rat
  low : Rat
  close : Rat
  volume : Rat
  range : Rat
  time : Int
  resolution : Int
  is_closed : Bool
deriving DecidableEq, Repr

/-- Modelled from the spec: Candle::new (candle.rs is not under src).  A fresh bar built
from a single price sample opens with open = high = low = close = price, the given
volume, zero range, and is_closed = false. -/
def Candle.new (symbol : SymbolName) (price : Rat) (volume : Rat) (time : Int)
    (resolution : Int) : Candle :=
  { symbol := symbol
    o := price
    high := price
    low := price
    close := price
    volume := volume
    range := 0
    time := time
    resolution := resolution
    is_closed := false }

/-- The base data variants that can reach the candlestick consolidator. -/
inductive BaseDataEnum
| tick (t : Tick)
| quote (q : QuoteData)
| candle (c : Candle)
| price (p : PriceData)
deriving DecidableEq, Repr

/-- The timestamp carried by a datum (BaseData::time_utc). -/
def data_time : BaseDataEnum → Int
| BaseDataEnum.tick t => t.time
| BaseDataEnum.quote q => q.time
| BaseDataEnum.candle c => c.time
| BaseDataEnum.price p => p.time

/-- Modelled from the spec: BaseDataEnum::time_created_utc (base_data_enum.rs is not under
src).  Per spec section 4.1 and the glossary, a bar is created at its close time, so for a
Candle it is open time plus resolution; point data (ticks, quotes, prices) is created at
its own timestamp. -/
def data_time_created : BaseDataEnum → Int
| BaseDataEnum.tick t => t.time
| BaseDataEnum.quote q => q.time
| BaseDataEnum.candle c => c.time + c.resolution
| BaseDataEnum.price p => p.time

/-- BaseDataEnum::set_is_closed restricted to the candle variant (the only one the
candlestick path closes); other variants are returned unchanged. -/
def set_is_closed : BaseDataEnum → Bool → BaseDataEnum
| BaseDataEnum.candle c, b => BaseDataEnum.candle { c with is_closed := b }
| d, _ => d

/-- Modelled from the spec: converters::open_time (converters.rs is not under src).  Spec
section 4.1: open_time(t) = floor(t / resolution) * resolution. -/
def open_time (sub : DataSubscription) (t : Int) : Int :=
  (Int.fdiv t sub.resolution) * sub.resolution

/-- RollingWindow from rolling_window.rs lines 2-6. -/
structure RollingWindow (α : Type) where
  history : List α
  number : Nat
deriving DecidableEq, Repr

/-- RollingWindow::new from rolling_window.rs lines 9-14. -/
def RollingWindow.fresh (α : Type) (number : Nat) : RollingWindow α :=
  { history := [], number := number }

/-- RollingWindow::add from rolling_window.rs lines 24-32: newest goes to index 0 and the
oldest element is dropped once capacity is exceeded. -/
def RollingWindow.add {α : Type} (w : RollingWindow α) (data : α) : RollingWindow α :=
  let h := data :: w.history
  if w.number < h.length then { w with history := h.dropLast } else { w with history := h }

/-- CandleStickConsolidator state from candlesticks.rs lines 15-20. -/
structure CandleStickConsolidator where
  current_data : Option BaseDataEnum
  subscription : DataSubscription
  history : RollingWindow BaseDataEnum
  tick_size : Rat
deriving DecidableEq, Repr

/-- round_to_tick_size from decimal_calculators.rs (not under src); the claims never
depend on its value, so it is kept as the amount rounded to the nearest tick, with a
zero tick size passing the value through. -/
def round_to_tick_size (value : Rat) (tick_size : Rat) : Rat :=
  if tick_size = 0 then value else round (value / tick_size) * tick_size

/-- CandleStickConsolidator::new_candle from candlesticks.rs lines 149-163: builds the
fresh open bar at the bucket open time from a tick, candle or price; other variants
panic in the source and yield none here. -/
def new_candle (c : CandleStickConsolidator) (new_data : BaseDataEnum) : Option Candle :=
  let time := open_time c.subscription (data_time new_data)
  match new_data with
  | BaseDataEnum.tick tick =>
    some (Candle.new c.subscription.symbol tick.price tick.volume time c.subscription.resolution)
  | BaseDataEnum.candle candle =>
    some { candle with is_closed := false, resolution := c.subscription.resolution, time := time }
  | BaseDataEnum.price price =>
    some (Candle.new c.subscription.symbol price.price 0 time c.subscription.resolution)
  | _ => none

/-- CandleStickConsolidator::update_candles from candlesticks.rs lines 34-83, ported
branch by branch: no open bar creates one; a datum created at or after the open bar
creation time closes the bar (marked is_closed, pushed to history) and opens a new one;
otherwise the datum is aggregated into the open bar.  Source panics are errors. -/
def update_candles (c : CandleStickConsolidator) (base_data : BaseDataEnum) :
    Except String (List BaseDataEnum × CandleStickConsolidator) :=
  match c.current_data with
  | none =>
    match new_candle c base_data with
    | some data =>
      let cd := BaseDataEnum.candle data
      Except.ok ([cd], { c with current_data := some cd })
    | none => Except.error "Invalid base data type for Candle consolidator"
  | some current_bar =>
    if data_time_created current_bar ≤ data_time_created base_data then
      match new_candle c base_data with
      | some nb =>
        let consolidated_bar := set_is_closed current_bar true
        Except.ok ([consolidated_bar, BaseDataEnum.candle nb],
          { c with
              history := c.history.add consolidated_bar
              current_data := some (BaseDataEnum.candle nb) })
      | none => Except.error "Invalid base data type for Candle consolidator"
    else
      match current_bar with
      | BaseDataEnum.candle candle =>
        match base_data with
        | BaseDataEnum.tick tick =>
          let c2 : Candle :=
            { candle with
                high := max candle.high tick.price
                low := min candle.low tick.price
                close := tick.price
                range := round_to_tick_size (max candle.high tick.price - min candle.low tick.price) c.tick_size
                volume := candle.volume + tick.volume }
          Except.ok ([BaseDataEnum.candle c2], { c with current_data := some (BaseDataEnum.candle c2) })
        | BaseDataEnum.candle new_c =>
          let c2 : Candle :=
            { candle with
                high := max candle.high new_c.high
                low := min candle.low new_c.low
                range := round_to_tick_size (max candle.high new_c.high - min candle.low new_c.low) c.tick_size
                close := new_c.close
                volume := candle.volume + new_c.volume }
          Except.ok ([BaseDataEnum.candle c2], { c with current_data := some (BaseDataEnum.candle c2) })
        | BaseDataEnum.price price =>
          let c2 : Candle :=
            { candle with
                high := max candle.high price.price
                low := min candle.low price.price
                range := round_to_tick_size (max candle.high price.price - min candle.low price.price) c.tick_size
                close := price.price }
          Except.ok ([BaseDataEnum.candle c2], { c with current_data := some (BaseDataEnum.candle c2) })
        | _ => Except.error "Invalid base data type for Candle consolidator"
      | _ => Except.error "Invalid base data type for Candle consolidator"

/-- CandleStickConsolidator::update_time from candlesticks.rs lines 23-32: when the time
has reached the creation time of the open bar, that bar is returned as-is and the slot is
cleared; otherwise nothing happens. -/
def update_time (c : CandleStickConsolidator) (time : Int) :
    List BaseDataEnum × CandleStickConsolidator :=
  match c.current_data with
  | some current_data =>
    if data_time_created current_data ≤ time then
      ([current_data], { c with current_data := none })
    else
      ([], c)
  | none => ([], c)

/-- The order kinds from orders.rs matched in market_handlers.rs lines 192-271. -/
inductive OrderType
| Limit
| Market
| MarketIfTouched
| StopMarket
| StopLimit
| TakeProfit
| StopLoss
| GuaranteedStopLoss
| TrailingStopLoss
| TrailingGuaranteedStopLoss
| EnterLong
| EnterShort
| ExitLong
| ExitShort
deriving DecidableEq, Repr

/-- Order lifecycle states used by the backtest engine. -/
inductive OrderState
| Created
| Accepted
| Filled
| Cancelled
| Rejected (reason : String)
deriving DecidableEq, Repr

/-- Order restricted to the fields the backtest matching engine reads and writes.  The
Symbol struct is identified by its name string here. -/
structure Order where
  brokerage : String
  account_id : String
  symbol : SymbolName
  quantity_ordered : Nat
  order_type : OrderType
  state : OrderState
  average_fill_price : Option Rat
  time_created_utc : String
deriving DecidableEq, Repr

/-- OrderUpdateEvent variants emitted by the backtest engine. -/
inductive OrderUpdateEvent
| Filled (o : Order)
| Rejected (o : Order)
deriving DecidableEq, Repr

/-- StrategyEvent::OrderEvents(owner_id, event) as pushed at the engine call sites. -/
inductive StrategyEvent
| OrderEvents (owner : String) (ev : OrderUpdateEvent)
deriving DecidableEq, Repr

/-- Price levels of one side of an OrderBook (order_book.rs): BTreeMap level to price. -/
def level_get (levels : List (Nat × Rat)) (i : Nat) : Option Rat :=
  match levels.find? (fun p => p.1 == i) with
  | some p => some p.2
  | none => none

/-- OrderBook bid and ask ladders from order_book.rs lines 67-72. -/
structure BookLevels where
  bid : List (Nat × Rat)
  ask : List (Nat × Rat)
deriving DecidableEq, Repr

/-- HistoricalMarketHandler state from ff_strategies market_handlers.rs lines 80-90. -/
structure HistoricalMarketHandler where
  owner_id : String
  order_books : List (SymbolName × BookLevels)
  last_price : List (SymbolName × Rat)
  ledgers : List (String × List (String × Ledger))
  last_time : Int
  order_cache : List Order
deriving DecidableEq, Repr

/-- Ledger lookup in the nested brokerage and account maps. -/
def ledgers_get (ls : List (String × List (String × Ledger))) (brokerage account_id : String) :
    Option Ledger :=
  match alist_get ls brokerage with
  | some inner => alist_get inner account_id
  | none => none

/-- Ledger write-back into the nested brokerage and account maps. -/
def ledgers_set (ls : List (String × List (String × Ledger))) (brokerage account_id : String)
    (led : Ledger) : List (String × List (String × Ledger)) :=
  match alist_get ls brokerage with
  | some inner => alist_set ls brokerage (alist_set inner account_id led)
  | none => ls

/-- HistoricalMarketHandler::get_market_price from ff_strategies market_handlers.rs lines
293-311.  When a book exists for the symbol only its level 0 of the requested side is
consulted; the last-price fallback applies only when no book exists at all; otherwise the
lookup fails. -/
def get_market_price (st : HistoricalMarketHandler) (order_side : OrderSide)
    (symbol_name : SymbolName) : Except String Rat :=
  match alist_get st.order_books symbol_name with
  | some book =>
    match order_side with
    | OrderSide.Buy =>
      match level_get book.ask 0 with
      | some ask_price => Except.ok ask_price
      | none => Except.error "No market price found for symbol"
    | OrderSide.Sell =>
      match level_get book.bid 0 with
      | some bid_price => Except.ok bid_price
      | none => Except.error "No market price found for symbol"
  | none =>
    match alist_get st.last_price symbol_name with
    | some last_price => Except.ok last_price
    | none => Except.error "No market price found for symbol"

/-- Modelled from the spec: Ledger::enter_long_paper is not under src; per spec section
4.7 an entry fill on the Buy side runs the position update algorithm with order side
Buy. -/
def enter_long_paper (margin_required : SymbolName → Nat → Rat) (led : Ledger)
    (symbol_name : SymbolName) (quantity : Nat) (price : Rat) (time : Int) :
    Except String Ledger :=
  update_or_create_paper_position margin_required led symbol_name quantity price
    OrderSide.Buy time

/-- Modelled from the spec: Ledger::enter_short_paper is not under src; per spec section
4.7 an entry fill on the Sell side runs the position update algorithm with order side
Sell. -/
def enter_short_paper (margin_required : SymbolName → Nat → Rat) (led : Ledger)
    (symbol_name : SymbolName) (quantity : Nat) (price : Rat) (time : Int) :
    Except String Ledger :=
  update_or_create_paper_position margin_required led symbol_name quantity price
    OrderSide.Sell time

/-- Step 1 of the engine loop body (market_handlers.rs lines 176-183): create the
brokerage entry and a paper ledger for the account when absent.  Brokerage::paper_ledger
is not under src and is taken to initialise a fresh paper account with the given starting
cash (spec section 4.6). -/
def ensure_ledger (starting_cash : Rat) (ls : List (String × List (String × Ledger)))
    (order : Order) : List (String × List (String × Ledger)) :=
  let ls0 :=
    if (alist_get ls order.brokerage).isNone then alist_add ls order.brokerage [] else ls
  match alist_get ls0 order.brokerage with
  | some inner =>
    if (alist_get inner order.account_id).isNone then
      alist_set ls0 order.brokerage
        (alist_add inner order.account_id
          (paper_account_init order.account_id order.brokerage starting_cash "USD"))
    else ls0
  | none => ls0

/-- One iteration of the order loop in backtest_matching_engine (market_handlers.rs lines
175-271).  Unsupported order kinds panic in the source and are errors here; the
Result::unwrap on get_market_price at lines 210, 229, 247 and 261 likewise propagates as
an error.  Exit branches emit a Filled event without touching the ledger, exactly as the
source does. -/
def process_order (margin_required : SymbolName → Nat → Rat) (starting_cash : Rat)
    (st : HistoricalMarketHandler) (order : Order) :
    Except String (HistoricalMarketHandler × List StrategyEvent) :=
  let ls1 := ensure_ledger starting_cash st.ledgers order
  match ledgers_get ls1 order.brokerage order.account_id with
  | none => Except.error "called unwrap on a None value"
  | some ledger =>
    let owner_id := st.owner_id
    match order.order_type with
    | OrderType.Limit => Except.error "Limit orders not supported in backtest"
    | OrderType.Market => Except.error "Market orders not supported in backtest"
    | OrderType.MarketIfTouched => Except.error "MarketIfTouched orders not supported in backtest"
    | OrderType.StopMarket => Except.error "StopMarket orders not supported in backtest"
    | OrderType.StopLimit => Except.error "StopLimit orders not supported in backtest"
    | OrderType.TakeProfit => Except.error "TakeProfit orders not supported in backtest"
    | OrderType.StopLoss => Except.error "StopLoss orders not supported in backtest"
    | OrderType.GuaranteedStopLoss => Except.error "GuaranteedStopLoss orders not supported in backtest"
    | OrderType.TrailingStopLoss => Except.error "TrailingStopLoss orders not supported in backtest"
    | OrderType.TrailingGuaranteedStopLoss => Except.error "TrailingGuaranteedStopLoss orders not supported in backtest"
    | OrderType.EnterLong =>
      let ledger1 :=
        if ledger_is_short ledger order.symbol then
          exit_position_paper margin_required ledger order.symbol
        else ledger
      match get_market_price st OrderSide.Buy order.symbol with
      | Except.error e => Except.error e
      | Except.ok market_price =>
        match enter_long_paper margin_required ledger1 order.symbol order.quantity_ordered
            market_price st.last_time with
        | Except.ok ledger2 =>
          let o2 := { order with
              state := OrderState.Filled
              average_fill_price := some market_price }
          Except.ok
            ({ st with ledgers := ledgers_set ls1 order.brokerage order.account_id ledger2 },
             [StrategyEvent.OrderEvents owner_id (OrderUpdateEvent.Filled o2)])
        | Except.error e =>
          let o2 := { order with
              state := OrderState.Rejected ("Failed to enter long position: " ++ e)
              time_created_utc := toString st.last_time }
          Except.ok
            ({ st with ledgers := ledgers_set ls1 order.brokerage order.account_id ledger1 },
             [StrategyEvent.OrderEvents owner_id (OrderUpdateEvent.Rejected o2)])
    | OrderType.EnterShort =>
      let ledger1 :=
        if ledger_is_long ledger order.symbol then
          exit_position_paper margin_required ledger order.symbol
        else ledger
      match get_market_price st OrderSide.Buy order.symbol with
      | Except.error e => Except.error e
      | Except.ok market_price =>
        match enter_short_paper margin_required ledger1 order.symbol order.quantity_ordered
            market_price st.last_time with
        | Except.ok ledger2 =>
          let o2 := { order with
              state := OrderState.Filled
              average_fill_price := some market_price }
          Except.ok
            ({ st with ledgers := ledgers_set ls1 order.brokerage order.account_id ledger2 },
             [StrategyEvent.OrderEvents owner_id (OrderUpdateEvent.Filled o2)])
        | Except.error e =>
          let o2 := { order with
              state := OrderState.Rejected ("Failed to enter short position: " ++ e)
              time_created_utc := toString st.last_time }
          Except.ok
            ({ st with ledgers := ledgers_set ls1 order.brokerage order.account_id ledger1 },
             [StrategyEvent.OrderEvents owner_id (OrderUpdateEvent.Rejected o2)])
    | OrderType.ExitLong =>
      if ledger_is_long ledger order.symbol then
        match get_market_price st OrderSide.Buy order.symbol with
        | Except.error e => Except.error e
        | Except.ok market_price =>
          let o2 := { order with
              state := OrderState.Filled
              average_fill_price := some market_price }
          Except.ok ({ st with ledgers := ls1 },
            [StrategyEvent.OrderEvents owner_id (OrderUpdateEvent.Filled o2)])
      else
        let o2 := { order with
            state := OrderState.Rejected "No long position to exit"
            time_created_utc := toString st.last_time }
        Except.ok ({ st with ledgers := ls1 },
          [StrategyEvent.OrderEvents owner_id (OrderUpdateEvent.Rejected o2)])
    | OrderType.ExitShort =>
      if ledger_is_short ledger order.symbol then
        match get_market_price st OrderSide.Buy order.symbol with
        | Except.error e => Except.error e
        | Except.ok market_price =>
          let o2 := { order with
              state := OrderState.Filled
              average_fill_price := some market_price }
          Except.ok ({ st with ledgers := ls1 },
            [StrategyEvent.OrderEvents owner_id (OrderUpdateEvent.Filled o2)])
      else
        let o2 := { order with
            state := OrderState.Rejected "No short position to exit"
            time_created_utc := toString st.last_time }
        Except.ok ({ st with ledgers := ls1 },
          [StrategyEvent.OrderEvents owner_id (OrderUpdateEvent.Rejected o2)])

/-- The engine order loop: processes the cached orders in submission order, threading the
handler state and concatenating the emitted events. -/
def run_orders (margin_required : SymbolName → Nat → Rat) (starting_cash : Rat)
    (st : HistoricalMarketHandler) :
    List Order → Except String (HistoricalMarketHandler × List StrategyEvent)
| [] => Except.ok (st, [])
| o :: rest =>
  match process_order margin_required starting_cash st o with
  | Except.error e => Except.error e
  | Except.ok (st1, evs) =>
    match run_orders margin_required starting_cash st1 rest with
    | Except.error e => Except.error e
    | Except.ok (st2, evs2) => Except.ok (st2, evs ++ evs2)

/-- HistoricalMarketHandler::backtest_matching_engine from ff_strategies
market_handlers.rs lines 166-279.  An empty cache returns none immediately; otherwise the
whole cache is processed and replaced by the freshly allocated remaining_orders vec,
which stays empty (line 174 and 273). -/
def backtest_matching_engine (margin_required : SymbolName → Nat → Rat)
    (starting_cash : Rat) (st : HistoricalMarketHandler) :
    Except String (Option (List StrategyEvent) × HistoricalMarketHandler) :=
  if st.order_cache.length == 0 then
    Except.ok (none, st)
  else
    match run_orders margin_required starting_cash st st.order_cache with
    | Except.error e => Except.error e
    | Except.ok (st1, events) =>
      let st2 := { st1 with order_cache := [] }
      if events.length == 0 then Except.ok (none, st2) else Except.ok (some events, st2)

/-- The per-step slice assembly of historical_data_feed (historical_engine.rs lines
170-173): month_time_slices.range(last_time ..= time) flat-mapped over the stored
slices.  The BTreeMap is an association list from timestamp to the vendor slice for that
timestamp; the Rust range operator a..=b is inclusive at both ends. -/
def assemble_time_slice (month_time_slices : List (Int × List BaseDataEnum))
    (last_time time : Int) : List BaseDataEnum :=
  (month_time_slices.filter (fun p => last_time ≤ p.1 ∧ p.1 ≤ time)).flatMap Prod.snd

/-- The slice the specification describes for the same step, for comparison: primary data
whose timestamps lie in the half-open interval (last_time, time], lower bound
exclusive. -/
def spec_exclusive_slice (month_time_slices : List (Int × List BaseDataEnum))
    (last_time time : Int) : List BaseDataEnum :=
  (month_time_slices.filter (fun p => last_time < p.1 ∧ p.1 ≤ time)).flatMap Prod.snd

/-- The cursor recursion of the time_instance_loop (historical_engine.rs lines 126-205)
restricted to the slice deliveries: each step advances the cursor to
time = last_time + buffer_duration, delivers the assembled slice for that step, and the
next iteration resumes with last_time = time (line 204).  The fuel argument counts the
steps taken. -/
def replay_steps (month_time_slices : List (Int × List BaseDataEnum)) (buffer : Int) :
    Int → Nat → List (Int × List BaseDataEnum)
| _, 0 => []
| last_time, Nat.succ n =>
  let time := last_time + buffer
  (time, assemble_time_slice month_time_slices last_time time)
    :: replay_steps month_time_slices buffer time n

/-
  Concrete instances used by the claim theorems.
-/

/-- A simple margin schedule: 100 per contract. -/
def c_margin : SymbolName → Nat → Rat := fun _ q => 100 * q

/-- Fresh paper ledger with 1000 cash. -/
def c2_led0 : Ledger := paper_account_init "acc" "Test" 1000 "USD"

/-- The ledger produced by a Buy fill of 1 at 50 on symbol S applied to the fresh
ledger: margin 100 is reserved, and the freshly opened position lands in
positions_closed while positions stays empty. -/
def c2_led1 : Ledger :=
  { account_id := "acc"
    brokerage := "Test"
    cash_value := 1000
    cash_available := 900
    currency := "USD"
    cash_used := 100
    positions := []
    positions_closed := [("S", [Position.enter "S" "Test" PositionSide.Long 1 50 "Test-acc-S-0-1-Long"])]
    positions_counter := [("S", 1)] }

/-- An open Short position of quantity 1 at average price 50. -/
def c3_pos0 : Position :=
  { symbol_name := "S"
    brokerage := "Test"
    side := PositionSide.Short
    quantity := 1
    average_price := 50
    open_pnl := 0
    booked_pnl := 0
    highest_recoded_price := 50
    lowest_recoded_price := 50
    is_closed := false
    id := "P1" }

/-- A ledger holding the open Short position (as built by Ledger::new from account
info). -/
def c3_led0 : Ledger :=
  { account_id := "acc"
    brokerage := "Test"
    cash_value := 1000
    cash_available := 900
    currency := "USD"
    cash_used := 100
    positions := [("S", c3_pos0)]
    positions_closed := []
    positions_counter := [("S", 1)] }

/-- The position after the Buy fill of 1 at 48 against the open Short: the source takes
the non-reducing branch and extends the Short to quantity 2 at the weighted average
49. -/
def c3_pos1 : Position :=
  { c3_pos0 with
      average_price := 49
      quantity := 2
      open_pnl := 2 }

/-- An open Long position of quantity 2 at average price 50, no pnl yet. -/
def c9_pos0 : Position :=
  { symbol_name := "S"
    brokerage := "Test"
    side := PositionSide.Long
    quantity := 2
    average_price := 50
    open_pnl := 0
    booked_pnl := 0
    highest_recoded_price := 50
    lowest_recoded_price := 50
    is_closed := false
    id := "P1" }

/-- A ledger holding the open Long position with the margin for it reserved; the cash
equation holds here: 1000 = 900 + 100 + 0. -/
def c9_led0 : Ledger :=
  { account_id := "acc"
    brokerage := "Test"
    cash_value := 1000
    cash_available := 900
    currency := "USD"
    cash_used := 100
    positions := [("S", c9_pos0)]
    positions_closed := []
    positions_counter := [("S", 1)] }

/-- The ledger after the reducing Sell fill of 1 at 52: booked pnl of (50 - 52) * 1 = -2
is moved into cash_available and cash_used but cash_value is left untouched, so
1000 is no longer 898 + 102 + (-2). -/
def c9_led1 : Ledger :=
  { c9_led0 with
      positions := [("S",
        { c9_pos0 with quantity := 1, open_pnl := 2, booked_pnl := -2 })]
      cash_available := 898
      cash_used := 102 }

/-- Order builder shared by the engine scenarios: symbol S on the Test brokerage,
account acc. -/
def mk_order (ot : OrderType) (qty : Nat) : Order :=
  { brokerage := "Test"
    account_id := "acc"
    symbol := "S"
    quantity_ordered := qty
    order_type := ot
    state := OrderState.Created
    average_fill_price := none
    time_created_utc := "0" }

/-- A book for S with best bid 9 and best ask 11. -/
def c6_book : BookLevels :=
  { bid := [(0, 9)], ask := [(0, 11)] }

/-- The ledger prepared for an engine scenario of the given order kind: exits get a
matching open position, the other kinds a fresh paper account. -/
def c6_ledger (ot : OrderType) : Ledger :=
  match ot with
  | OrderType.ExitLong => c9_led0
  | OrderType.ExitShort => c3_led0
  | _ => c2_led0

/-- Engine state with the bid 9 / ask 11 book for S and a single cached order of the
given kind. -/
def c6_state (ot : OrderType) : HistoricalMarketHandler :=
  { owner_id := "owner"
    order_books := [("S", c6_book)]
    last_price := []
    ledgers := [("Test", [("acc", c6_ledger ot)])]
    last_time := 0
    order_cache := [mk_order ot 1] }

/-- Engine state with no book for S, only a last traded price. -/
def c6_nobook_state (last : Rat) : HistoricalMarketHandler :=
  { owner_id := "owner"
    order_books := []
    last_price := [("S", last)]
    ledgers := [("Test", [("acc", c2_led0)])]
    last_time := 0
    order_cache := [mk_order OrderType.EnterShort 1] }

/-- Engine state with neither a book nor a last price for S. -/
def c6_noprice_state : HistoricalMarketHandler :=
  { owner_id := "owner"
    order_books := []
    last_price := []
    ledgers := [("Test", [("acc", c2_led0)])]
    last_time := 0
    order_cache := [mk_order OrderType.EnterShort 1] }

/-- The fill price carried by the first event of an engine result, when that event is a
fill. -/
def fill_price_of (r : Except String (Option (List StrategyEvent) × HistoricalMarketHandler)) :
    Option Rat :=
  match r with
  | Except.ok (some (StrategyEvent.OrderEvents _ (OrderUpdateEvent.Filled o) :: _), _) =>
    o.average_fill_price
  | _ => none

/-- Looking up the key just appended to an association list it was absent from. -/
theorem alist_get_add_none {α : Type} (m : List (String × α)) (k : String) (v : α)
    (h : alist_get m k = none) : alist_get (alist_add m k v) k = some v := by
  induction m with
  | nil => simp [alist_get, alist_add]
  | cons p rest ih =>
    by_cases hp : p.1 == k
    · exfalso
      simp [alist_get, List.find?, hp] at h
    · simp only [alist_get, alist_add, List.cons_append, List.find?, hp] at h ⊢
      exact ih h

/-- Looking up a present key after replacing its value in an association list. -/
theorem alist_get_set_some {α : Type} (m : List (String × α)) (k : String) (v w : α)
    (h : alist_get m k = some w) : alist_get (alist_set m k v) k = some v := by
  induction m with
  | nil => simp [alist_get] at h
  | cons p rest ih =>
    by_cases hp : p.1 == k
    · simp [alist_get, alist_set, List.find?, hp]
    · simp only [alist_get, alist_set, List.map, List.find?, hp, if_neg] at h ⊢
      simp only [hp, Bool.false_eq_true, if_false, List.find?] at h ⊢
      exact ih h

/-- Step 1 of the engine loop always leaves a ledger in place for the order's brokerage
and account. -/
theorem ensure_ledger_some (starting_cash : Rat) (ls : List (String × List (String × Ledger)))
    (o : Order) :
    ∃ led, ledgers_get (ensure_ledger starting_cash ls o) o.brokerage o.account_id = some led := by
  unfold ensure_ledger ledgers_get
  cases h1 : alist_get ls o.brokerage with
  | none =>
    have h2 : alist_get (alist_add ls o.brokerage ([] : List (String × Ledger))) o.brokerage
        = some [] := alist_get_add_none ls o.brokerage [] h1
    simp only [h1, Option.isNone_none, if_true, h2]
    have h3 : alist_get ([] : List (String × Ledger)) o.account_id = none := rfl
    simp only [h3, Option.isNone_none, if_true]
    refine ⟨paper_account_init o.account_id o.brokerage starting_cash "USD", ?_⟩
    have h4 := alist_get_set_some (alist_add ls o.brokerage ([] : List (String × Ledger)))
      o.brokerage
      (alist_add [] o.account_id (paper_account_init o.account_id o.brokerage starting_cash "USD"))
      [] h2
    simp only [h4]
    exact alist_get_add_none [] o.account_id _ h3
  | some inner =>
    simp only [h1, Option.isNone_some, Bool.false_eq_true, if_false]
    cases h2 : alist_get inner o.account_id with
    | none =>
      simp only [h1, h2, Option.isNone_none, if_true]
      refine ⟨paper_account_init o.account_id o.brokerage starting_cash "USD", ?_⟩
      have h4 := alist_get_set_some ls o.brokerage
        (alist_add inner o.account_id (paper_account_init o.account_id o.brokerage starting_cash "USD"))
        inner h1
      simp only [h4]
      exact alist_get_add_none inner o.account_id _ h2
    | some led =>
      simp only [h1, h2, Option.isNone_some, Bool.false_eq_true, if_false]
      exact ⟨led, rfl⟩

/-
  Claim theorems.
-/

/-- Claim C2.  The claim states that a fill on a symbol with no existing position and
sufficient cash puts the new position into the open-positions map and leaves the
closed-positions list unchanged.  The source instead inserts the freshly created
position into positions_closed (ledgers.rs lines 254-259, directly under the comment
saying it inserts into the positions map) and never touches positions; this theorem
evaluates the fill on a fresh ledger and shows the misfiled position, the untouched
open-positions map, and the margin accounting that does follow the claim. -/
theorem C2_new_position_misfiled :
    update_or_create_paper_position c_margin c2_led0 "S" 1 50 OrderSide.Buy 0
        = Except.ok c2_led1
      ∧ c2_led1.positions = []
      ∧ c2_led1.positions_closed
          = [("S", [Position.enter "S" "Test" PositionSide.Long 1 50 "Test-acc-S-0-1-Long"])]
      ∧ c2_led1.cash_available = 900
      ∧ c2_led1.cash_used = 100 := by
  refine ⟨?_, ?_, ?_, ?_, ?_⟩ <;> with_unfolding_all rfl

/-- Claim C3.  The claim states that a Buy fill against an open Short position is treated
as reducing.  The is_reducing match in ledgers.rs lines 147-160 has identical arms for
Long and Short, so a Buy against a Short takes the non-reducing branch: this theorem
evaluates a Buy fill of 1 at 48 against an open Short of 1 at 50 and shows the position
is extended to quantity 2 on the Short side with no pnl booked, instead of being closed
with pnl booked. -/
theorem C3_buy_against_short_extends :
    update_or_create_paper_position c_margin c3_led0 "S" 1 48 OrderSide.Buy 0
        = Except.ok
            { c3_led0 with
                positions := [("S", c3_pos1)]
                cash_available := 800
                cash_used := 200 }
      ∧ c3_pos1.side = PositionSide.Short
      ∧ c3_pos1.quantity = 2
      ∧ c3_pos1.booked_pnl = 0 := by
  refine ⟨?_, ?_, ?_, ?_⟩ <;> with_unfolding_all rfl

set_option maxRecDepth 100000 in
/-- Claim C9.  The claim states the invariant cash_value = cash_available + cash_used +
realized pnl after every ledger operation.  The reducing branch of
update_or_create_paper_position (ledgers.rs lines 192-194) books pnl into cash_available
and cash_used but never adjusts cash_value (unlike exit_position_paper line 282), so a
reducing fill with nonzero pnl breaks the equation: starting from a ledger where it
holds, a Sell fill of 1 at 52 against an open Long of 2 at 50 leaves cash_value at 1000
while cash_available + cash_used + realized pnl becomes 998. -/
theorem C9_cash_equation_broken_by_reduce :
    cash_equation c9_led0
      ∧ update_or_create_paper_position c_margin c9_led0 "S" 1 52 OrderSide.Sell 0
          = Except.ok c9_led1
      ∧ c9_led1.cash_value = 1000
      ∧ c9_led1.cash_available + c9_led1.cash_used + realized_sum c9_led1 = 998
      ∧ ¬ cash_equation c9_led1 := by
  refine ⟨?_, ?_, ?_, ?_, ?_⟩
  · with_unfolding_all decide
  · with_unfolding_all rfl
  · with_unfolding_all rfl
  · with_unfolding_all rfl
  · with_unfolding_all decide

/-- Engine state for the ExitLong scenario: a ledger holding the open Long position of 2
at 50 with its margin reserved, a last price of 55 for S, and a single cached ExitLong
order. -/
def c4_state : HistoricalMarketHandler :=
  { owner_id := "owner"
    order_books := []
    last_price := [("S", 55)]
    ledgers := [("Test", [("acc", c9_led0)])]
    last_time := 0
    order_cache := [mk_order OrderType.ExitLong 2] }

/-- Claim C4.  The claim states that an ExitLong order against an open Long position is
filled and the position is closed fully (quantity 0, marked closed, moved to the
closed-positions list, margin freed).  The ExitLong branch of backtest_matching_engine
(market_handlers.rs lines 244-257) emits the Filled event but never calls
exit_position_paper, so the ledger is completely untouched: this theorem runs the engine
on an open Long of 2 at 50 with last price 55 and shows the Filled event next to the
unchanged ledger, whose position is still open with quantity 2 and whose margin is still
reserved. -/
theorem C4_exit_long_fills_without_closing :
    backtest_matching_engine c_margin 1000 c4_state
        = Except.ok
            (some [StrategyEvent.OrderEvents "owner"
              (OrderUpdateEvent.Filled
                { mk_order OrderType.ExitLong 2 with
                    state := OrderState.Filled
                    average_fill_price := some 55 })],
             { c4_state with order_cache := [] })
      ∧ ledgers_get ({ c4_state with order_cache := [] }).ledgers "Test" "acc" = some c9_led0
      ∧ alist_get c9_led0.positions "S" = some c9_pos0
      ∧ c9_pos0.is_closed = false
      ∧ c9_pos0.quantity = 2
      ∧ c9_led0.positions_closed = []
      ∧ c9_led0.cash_used = 100 := by
  refine ⟨?_, ?_, ?_, ?_, ?_, ?_, ?_⟩ <;> with_unfolding_all rfl

/-- Engine state for the Market-order scenario: a resolvable last price of 50 for S and a
single cached Market order. -/
def c5_state : HistoricalMarketHandler :=
  { owner_id := "owner"
    order_books := []
    last_price := [("S", 50)]
    ledgers := [("Test", [("acc", c2_led0)])]
    last_time := 0
    order_cache := [mk_order OrderType.Market 1] }

/-- Claim C5 counterexample.  The claim states that a Market order with a resolvable
market price gets a one-shot Filled event and that processing it never panics.  The
Market arm of the engine (market_handlers.rs line 197) is an unconditional panic: with a
last price of 50 present, the invocation aborts instead of producing any event. -/
theorem C5_market_order_panics :
    backtest_matching_engine c_margin 1000 c5_state
      = Except.error "Market orders not supported in backtest" := by
  with_unfolding_all rfl

/-- Claim C5 as amended.  Market orders are not supported by the backtest matching
engine: whenever the head of the order cache is a Market order, the invocation panics
with the fixed message and produces no events at all. -/
theorem C5_market_order_unsupported (margin_required : SymbolName → Nat → Rat)
    (starting_cash : Rat) (st : HistoricalMarketHandler) (o : Order) (rest : List Order)
    (hc : st.order_cache = o :: rest) (ht : o.order_type = OrderType.Market) :
    backtest_matching_engine margin_required starting_cash st
      = Except.error "Market orders not supported in backtest" := by
  obtain ⟨led, hled⟩ := ensure_ledger_some starting_cash st.ledgers o
  have h1 : process_order margin_required starting_cash st o
      = Except.error "Market orders not supported in backtest" := by
    unfold process_order
    simp only [hled, ht]
  unfold backtest_matching_engine
  simp only [hc, List.length_cons]
  have h2 : (rest.length + 1 == 0) = false := by simp
  simp only [h2, Bool.false_eq_true, if_false]
  unfold run_orders
  simp only [h1]

/-- Claim C5 witness for the amended statement: the concrete Market-order state satisfies
both hypotheses and the engine indeed panics there. -/
theorem C5_market_order_unsupported_witness :
    c5_state.order_cache = mk_order OrderType.Market 1 :: []
      ∧ (mk_order OrderType.Market 1).order_type = OrderType.Market
      ∧ backtest_matching_engine c_margin 1000 c5_state
          = Except.error "Market orders not supported in backtest" :=
  ⟨rfl, rfl,
    C5_market_order_unsupported c_margin 1000 c5_state (mk_order OrderType.Market 1) [] rfl rfl⟩

/-- Claim C6 counterexample.  The claim states that a Sell-side fill (EnterShort,
ExitLong) resolves to the best bid when top-of-book is known.  With best bid 9 and best
ask 11 for S, an EnterShort order fills at 11 — the engine passes OrderSide::Buy at every
get_market_price call site (market_handlers.rs lines 210, 229, 247, 261) — so the bid is
never used. -/
theorem C6_enter_short_fills_at_ask :
    fill_price_of (backtest_matching_engine c_margin 1000 (c6_state OrderType.EnterShort))
        = some 11
      ∧ level_get c6_book.bid 0 = some 9
      ∧ level_get c6_book.ask 0 = some 11
      ∧ (11 : Rat) ≠ 9 := by
  refine ⟨?_, ?_, ?_, ?_⟩
  · with_unfolding_all rfl
  · with_unfolding_all rfl
  · with_unfolding_all rfl
  · norm_num

/-- Claim C6 as amended.  Every simulated fill-price resolution in the backtest matching
engine requests the Buy side, whatever the order kind: when a book exists for the symbol
the fill price is its best ask (level 0) for all four supported kinds, the best bid being
ignored; when no book exists the last traded price is used; and when neither is
available the resolution fails and the engine propagates the panic of the unwrap at the
call site instead of rejecting the order. -/
theorem C6_all_fills_resolve_buy_side :
    (∀ ot : OrderType,
        (ot = OrderType.EnterLong ∨ ot = OrderType.EnterShort
          ∨ ot = OrderType.ExitLong ∨ ot = OrderType.ExitShort) →
        fill_price_of (backtest_matching_engine c_margin 1000 (c6_state ot)) = some 11)
      ∧ (∀ last : Rat,
          fill_price_of (backtest_matching_engine c_margin 1000 (c6_nobook_state last))
            = some last)
      ∧ backtest_matching_engine c_margin 1000 c6_noprice_state
          = Except.error "No market price found for symbol" := by
  refine ⟨?_, ?_, ?_⟩
  · intro ot h
    rcases h with h | h | h | h <;> subst h <;> with_unfolding_all rfl
  · intro last
    with_unfolding_all rfl
  · with_unfolding_all rfl

/-- Claim C6 witness for the amended statement: instantiated at EnterLong with the 9/11
book and at a last price of 42 with no book. -/
theorem C6_all_fills_resolve_buy_side_witness :
    fill_price_of (backtest_matching_engine c_margin 1000 (c6_state OrderType.EnterLong))
        = some 11
      ∧ fill_price_of (backtest_matching_engine c_margin 1000 (c6_nobook_state 42))
          = some 42 :=
  ⟨C6_all_fills_resolve_buy_side.1 OrderType.EnterLong (Or.inl rfl),
   C6_all_fills_resolve_buy_side.2.1 42⟩

/-- Engine state holding a single unsupported Limit order with a market price present. -/
def c10_state : HistoricalMarketHandler :=
  { owner_id := "owner"
    order_books := []
    last_price := [("S", 50)]
    ledgers := [("Test", [("acc", c2_led0)])]
    last_time := 0
    order_cache := [mk_order OrderType.Limit 1] }

/-- Claim C10 counterexample.  The claim states that every invocation of the engine
consumes the whole cache and leaves it empty, for orders of any kind including
unsupported ones.  An invocation whose cache holds a Limit order panics mid-pass
(market_handlers.rs line 195) before the cache write-back at line 273 can run, so that
invocation never completes with an empty cache. -/
theorem C10_limit_order_aborts_pass :
    backtest_matching_engine c_margin 1000 c10_state
      = Except.error "Limit orders not supported in backtest" := by
  with_unfolding_all rfl

/-- Claim C10 as amended.  Whenever an invocation of the backtest matching engine returns
instead of panicking, it has consumed the entire pending-order cache in a single pass and
the resulting cache is empty; orders can survive an invocation only by panicking it. -/
theorem C10_completed_pass_empties_cache (margin_required : SymbolName → Nat → Rat)
    (starting_cash : Rat) (st : HistoricalMarketHandler)
    (res : Option (List StrategyEvent) × HistoricalMarketHandler)
    (h : backtest_matching_engine margin_required starting_cash st = Except.ok res) :
    res.2.order_cache = [] := by
  unfold backtest_matching_engine at h
  split at h
  · next hc =>
    cases h
    have hlen : st.order_cache.length = 0 := by
      simpa using hc
    simpa using List.length_eq_zero.mp hlen
  · next hc =>
    split at h
    · cases h
    · next st1 events heq =>
      split at h <;> cases h <;> rfl

/-- The engine state for the completed-pass witness: one EnterLong order with a last
price present, so the invocation returns normally. -/
def c10_ok_state : HistoricalMarketHandler :=
  { owner_id := "owner"
    order_books := []
    last_price := [("S", 50)]
    ledgers := []
    last_time := 0
    order_cache := [mk_order OrderType.EnterLong 1] }

/-- The result of the completed pass: a fill event at 50 and the handler with the ledger
created on the fly and the cache emptied. -/
def c10_ok_pair : Option (List StrategyEvent) × HistoricalMarketHandler :=
  (some [StrategyEvent.OrderEvents "owner"
      (OrderUpdateEvent.Filled
        { mk_order OrderType.EnterLong 1 with
            state := OrderState.Filled
            average_fill_price := some 50 })],
   { c10_ok_state with
       ledgers := [("Test", [("acc", c2_led1)])]
       order_cache := [] })

/-- Claim C10 witness for the amended statement: the EnterLong invocation completes and
its cache is empty afterwards. -/
theorem C10_completed_pass_empties_cache_witness :
    backtest_matching_engine c_margin 1000 c10_ok_state = Except.ok c10_ok_pair
      ∧ c10_ok_pair.2.order_cache = [] :=
  ⟨by with_unfolding_all rfl,
   C10_completed_pass_empties_cache c_margin 1000 c10_ok_state c10_ok_pair
     (by with_unfolding_all rfl)⟩

/-- A primary datum at timestamp 1. -/
def c1_datum : BaseDataEnum :=
  BaseDataEnum.tick { symbol := "S", price := 10, volume := 1, time := 1 }

/-- A month map holding exactly that datum. -/
def c1_month : List (Int × List BaseDataEnum) := [(1, [c1_datum])]

/-- Claim C1 counterexample.  The claim states the delivered slice covers the half-open
interval (last_time, t], lower bound exclusive, so no datum is delivered in two
consecutive steps.  The range call at historical_engine.rs lines 170-171 is
last_time ..= time, inclusive at both ends: stepping twice from cursor 0 with buffer 1
over a datum at timestamp 1 delivers that datum in the step ending at 1 and again in the
step ending at 2, while the interval the claim describes would deliver it only once. -/
theorem C1_boundary_datum_delivered_twice :
    replay_steps c1_month 1 0 2 = [(1, [c1_datum]), (2, [c1_datum])]
      ∧ assemble_time_slice c1_month 1 2 = [c1_datum]
      ∧ spec_exclusive_slice c1_month 1 2 = [] := by
  refine ⟨?_, ?_, ?_⟩ <;> with_unfolding_all rfl

/-- Claim C1 as amended.  The slice assembled for the step from last_time to t contains
exactly the primary data whose timestamps lie in the closed interval [last_time, t],
both bounds inclusive; consequently a datum whose timestamp falls exactly on a step
boundary is delivered in that step and again in the following one. -/
theorem C1_slice_is_closed_interval :
    (∀ (m : List (Int × List BaseDataEnum)) (last_time time : Int) (x : BaseDataEnum),
        x ∈ assemble_time_slice m last_time time
          ↔ ∃ p : Int × List BaseDataEnum,
              p ∈ m ∧ x ∈ p.2 ∧ last_time ≤ p.1 ∧ p.1 ≤ time)
      ∧ (∀ (m : List (Int × List BaseDataEnum)) (last_time buffer : Int)
            (x : BaseDataEnum) (sl : List BaseDataEnum),
          (last_time + buffer, sl) ∈ m → x ∈ sl → 0 ≤ buffer →
          x ∈ assemble_time_slice m last_time (last_time + buffer)
            ∧ x ∈ assemble_time_slice m (last_time + buffer) (last_time + buffer + buffer)) := by
  have hmem : ∀ (m : List (Int × List BaseDataEnum)) (last_time time : Int) (x : BaseDataEnum),
      x ∈ assemble_time_slice m last_time time
        ↔ ∃ p : Int × List BaseDataEnum,
            p ∈ m ∧ x ∈ p.2 ∧ last_time ≤ p.1 ∧ p.1 ≤ time := by
    intro m last_time time x
    unfold assemble_time_slice
    simp only [List.mem_flatMap, List.mem_filter, decide_eq_true_eq]
    constructor
    · rintro ⟨p, ⟨hp, hb1, hb2⟩, hx⟩
      exact ⟨p, hp, hx, hb1, hb2⟩
    · rintro ⟨p, hp, hx, hb1, hb2⟩
      exact ⟨p, ⟨hp, hb1, hb2⟩, hx⟩
  refine ⟨hmem, ?_⟩
  intro m last_time buffer x sl hin hx hb
  have hlo : last_time ≤ (last_time + buffer, sl).1 := by
    show last_time ≤ last_time + buffer
    linarith
  have hhi : (last_time + buffer, sl).1 ≤ last_time + buffer + buffer := by
    show last_time + buffer ≤ last_time + buffer + buffer
    linarith
  constructor
  · exact (hmem m last_time (last_time + buffer) x).mpr
      ⟨(last_time + buffer, sl), hin, hx, hlo, le_refl _⟩
  · exact (hmem m (last_time + buffer) (last_time + buffer + buffer) x).mpr
      ⟨(last_time + buffer, sl), hin, hx, le_refl _, hhi⟩

/-- Claim C1 witness for the amended statement: the boundary datum of the counterexample
month is a member of both consecutive step slices. -/
theorem C1_slice_is_closed_interval_witness :
    c1_datum ∈ assemble_time_slice c1_month 0 1
      ∧ c1_datum ∈ assemble_time_slice c1_month 1 2 :=
  C1_slice_is_closed_interval.2 c1_month 0 1 c1_datum [c1_datum]
    (by simp [c1_month]) (by simp) (by norm_num)

/-- Whether a datum is one of the variants the candle path accepts (tick, candle,
price). -/
def is_candle_input : BaseDataEnum → Bool
| BaseDataEnum.tick _ => true
| BaseDataEnum.candle _ => true
| BaseDataEnum.price _ => true
| _ => false

/-- The close price a datum contributes to a bar. -/
def datum_close : BaseDataEnum → Rat
| BaseDataEnum.tick t => t.price
| BaseDataEnum.candle c => c.close
| BaseDataEnum.price p => p.price
| BaseDataEnum.quote q => q.bid

/-- Claim C7.  For the candlestick consolidator with an open current bar, any accepted
datum created at or after the close time of the open bar closes that bar — the returned
closed copy is the open bar with is_closed set, it is pushed onto history — and a new
bar built from the datum is opened, both returned in that order in one batch; the
boundary case time_created equal to the close time takes this path, so such a datum
lands in the next bar and never mutates the closing one. -/
theorem C7_boundary_datum_opens_next_bar
    (c : CandleStickConsolidator) (cur : Candle) (bd : BaseDataEnum)
    (h1 : c.current_data = some (BaseDataEnum.candle cur))
    (h2 : is_candle_input bd = true)
    (h3 : cur.time + cur.resolution ≤ data_time_created bd) :
    ∃ nb : Candle,
      new_candle c bd = some nb
        ∧ update_candles c bd
            = Except.ok
                ([BaseDataEnum.candle { cur with is_closed := true }, BaseDataEnum.candle nb],
                 { c with
                     history := c.history.add (BaseDataEnum.candle { cur with is_closed := true })
                     current_data := some (BaseDataEnum.candle nb) })
        ∧ ({ cur with is_closed := true } : Candle).is_closed = true
        ∧ nb.is_closed = false
        ∧ nb.time = open_time c.subscription (data_time bd)
        ∧ nb.close = datum_close bd := by
  cases bd with
  | tick t =>
    refine ⟨Candle.new c.subscription.symbol t.price t.volume
      (open_time c.subscription t.time) c.subscription.resolution, rfl, ?_, rfl, rfl, rfl, rfl⟩
    unfold update_candles
    rw [h1]
    simp only [data_time_created] at h3 ⊢
    rw [if_pos h3]
    rfl
  | candle cd =>
    refine ⟨{ cd with
        is_closed := false
        resolution := c.subscription.resolution
        time := open_time c.subscription cd.time }, rfl, ?_, rfl, rfl, rfl, rfl⟩
    unfold update_candles
    rw [h1]
    simp only [data_time_created] at h3 ⊢
    rw [if_pos h3]
    rfl
  | price p =>
    refine ⟨Candle.new c.subscription.symbol p.price 0
      (open_time c.subscription p.time) c.subscription.resolution, rfl, ?_, rfl, rfl, rfl, rfl⟩
    unfold update_candles
    rw [h1]
    simp only [data_time_created] at h3 ⊢
    rw [if_pos h3]
    rfl
  | quote q =>
    exact absurd h2 (by simp [is_candle_input])

/-- A one-minute candles subscription for S. -/
def c7_sub : DataSubscription :=
  { symbol := "S"
    resolution := 60
    base_data_type := BaseDataType.Candles
    candle_type := some CandleType.CandleStick }

/-- The open current bar: opened at 0, resolution 60, so its close time is 60. -/
def c7_cur : Candle :=
  { symbol := "S"
    o := 10
    high := 11
    low := 9
    close := 10
    volume := 5
    range := 2
    time := 0
    resolution := 60
    is_closed := false }

/-- A consolidator holding that open bar. -/
def c7_cons : CandleStickConsolidator :=
  { current_data := some (BaseDataEnum.candle c7_cur)
    subscription := c7_sub
    history := RollingWindow.fresh BaseDataEnum 10
    tick_size := 1 }

/-- A tick exactly at the close boundary of the open bar. -/
def c7_tick : BaseDataEnum :=
  BaseDataEnum.tick { symbol := "S", price := 12, volume := 1, time := 60 }

/-- Claim C7 witness: the boundary tick at time 60 against the bar open at 0 with
resolution 60 satisfies the hypotheses, and the theorem applies. -/
theorem C7_boundary_datum_opens_next_bar_witness :
    c7_cons.current_data = some (BaseDataEnum.candle c7_cur)
      ∧ is_candle_input c7_tick = true
      ∧ c7_cur.time + c7_cur.resolution ≤ data_time_created c7_tick
      ∧ ∃ nb : Candle,
          new_candle c7_cons c7_tick = some nb
            ∧ update_candles c7_cons c7_tick
                = Except.ok
                    ([BaseDataEnum.candle { c7_cur with is_closed := true },
                      BaseDataEnum.candle nb],
                     { c7_cons with
                         history := c7_cons.history.add
                           (BaseDataEnum.candle { c7_cur with is_closed := true })
                         current_data := some (BaseDataEnum.candle nb) })
            ∧ ({ c7_cur with is_closed := true } : Candle).is_closed = true
            ∧ nb.is_closed = false
            ∧ nb.time = open_time c7_cons.subscription (data_time c7_tick)
            ∧ nb.close = datum_close c7_tick :=
  ⟨rfl, rfl, by decide,
   C7_boundary_datum_opens_next_bar c7_cons c7_cur c7_tick rfl rfl (by decide)⟩

/-- Claim C8.  The claim states that when update_time is called at or past the close time
of the open bar, the emitted bar is marked is_closed = true.  The source
(candlesticks.rs lines 23-32) returns the stored bar as-is without calling set_is_closed
and without pushing it to history: at the close time 60 of a bar opened at 0 with
resolution 60, the emitted bar still has is_closed = false, while the slot is indeed
cleared; the no-op cases the claim also describes do hold. -/
theorem C8_update_time_emits_unclosed_bar :
    update_time c7_cons 60
        = ([BaseDataEnum.candle c7_cur], { c7_cons with current_data := none })
      ∧ c7_cur.is_closed = false
      ∧ update_time c7_cons 59 = ([], c7_cons)
      ∧ update_time { c7_cons with current_data := none } 100
          = ([], { c7_cons with current_data := none }) := by
  refine ⟨?_, ?_, ?_, ?_⟩ <;> with_unfolding_all rfl

end FundForge
